import Mathlib

/-!
Shallow embedding of the odilia-input repository (src/keybinds.rs and
src/lib.rs): the key/modifier data model, the two key-binding matchers
(`keyevent_match` in keybinds.rs and `keybind_match` in lib.rs), the
registry operations, the pressed-key tracker of the capture thread, and
models of the `rdev::grab` callback and of `init`.
-/

/-- Modifiers is the bitset type of the external odilia_common crate
(spec section 3): nine independent modifier bit positions; equality is
bitwise, `intersects` is bitwise AND not zero, `contains` is bitwise AND
equal to the right-hand operand.  Embedded as a natural number used as a
bitset. -/
abbrev Modifiers := Nat

/-- The empty modifier set (`Modifiers::NONE`). -/
def Modifiers.NONE : Modifiers := 0

/-- Bit for the caps-lock derived Odilia modifier. -/
def Modifiers.ODILIA : Modifiers := 1

/-- Bit for left alt. -/
def Modifiers.ALT_L : Modifiers := 2

/-- Bit for right alt. -/
def Modifiers.ALT_R : Modifiers := 4

/-- Bit for left control. -/
def Modifiers.CONTROL_L : Modifiers := 8

/-- Bit for right control. -/
def Modifiers.CONTROL_R : Modifiers := 16

/-- Bit for left shift. -/
def Modifiers.SHIFT_L : Modifiers := 32

/-- Bit for right shift. -/
def Modifiers.SHIFT_R : Modifiers := 64

/-- Bit for left meta. -/
def Modifiers.META_L : Modifiers := 128

/-- Bit for right meta. -/
def Modifiers.META_R : Modifiers := 256

/-- bitflags `intersects`: the two bitsets share at least one set bit. -/
def Modifiers.intersects (a b : Modifiers) : Bool := decide (a &&& b ≠ 0)

/-- bitflags `contains`: every bit of `b` is set in `a`. -/
def Modifiers.contains (a b : Modifiers) : Bool := decide (a &&& b = b)

/-- The normalized logical key vocabulary of odilia_common (spec section 3),
with exactly the constructors produced by the key table in src/lib.rs
(`rdev_keys_to_single_odilia_key`). -/
inductive Key where
  | Backspace | Delete | Down | Up | Left | Right | End | Escape
  | F1 | F2 | F3 | F4 | F5 | F6 | F7 | F8 | F9 | F10 | F11 | F12
  | Home | PageDown | PageUp | Return | Space | Tab | PrintScreen
  | ScrollLock | Pause | NumLock
  | Kp0 | Kp1 | Kp2 | Kp3 | Kp4 | Kp5 | Kp6 | Kp7 | Kp8 | Kp9
  | Insert | KpReturn | KpMinus | KpPlus | KpMultiply | KpDivide | KpDelete
  | Function
  | Other (c : Char)
  deriving DecidableEq

/-- ScreenReaderMode of odilia_common: a named mode value compared by
equality only (spec section 3); embedded as its name. -/
abbrev ScreenReaderMode := String

/-- The mode installed by `ScreenReaderMode::new("CommandMoode")` in
keybinds.rs (the initial value of the `SR_MODE` global). -/
def commandMoode : ScreenReaderMode := "CommandMoode"

/-- A second, distinct mode name, used to exercise mode gating. -/
def browseMode : ScreenReaderMode := "BrowseMode"

/-- A key binding (odilia_common, spec section 3): key, modifier bitset,
repeat count (a `u8`, only ever compared for equality, so embedded as Nat),
optional required mode, and the notify / consume flags. -/
structure KeyBinding where
  key : Key
  mods : Modifiers
  rpt : Nat
  mode : Option ScreenReaderMode
  notify : Bool
  consume : Bool
  deriving DecidableEq

/-- A normalized key event (odilia_common): the fields read by
`keyevent_match` in keybinds.rs — key, modifier bitset and repeat count. -/
structure KeyEvent where
  key : Key
  mods : Modifiers
  rpt : Nat
  deriving DecidableEq

/-- The modifier test of `keyevent_match` / `keyevent_match_sync`
(keybinds.rs line 65 / 85):
`(kb.mods == Modifiers::NONE && kbm.mods == Modifiers::NONE) || kb.mods.intersects(kbm.mods)`. -/
def keyevent_mod_test (kbMods evMods : Modifiers) : Bool :=
  (decide (kbMods = Modifiers.NONE) && decide (evMods = Modifiers.NONE)) ||
    Modifiers.intersects kbMods evMods

/-- The per-entry test of the loop body of `keyevent_match`
(keybinds.rs lines 62-68): the conjunction accumulated in `matches` —
key equality, repeat equality, the modifier test, and, when the binding
carries a mode, equality with the current screen-reader mode. -/
def keyevent_entry_matches (kb : KeyBinding) (sr_mode : ScreenReaderMode)
    (kbm : KeyEvent) : Bool :=
  decide (kb.key = kbm.key) &&
  decide (kb.rpt = kbm.rpt) &&
  keyevent_mod_test kb.mods kbm.mods &&
  (match kb.mode with
   | some m => decide (m = sr_mode)
   | none => true)

/-- `keyevent_match` (keybinds.rs lines 57-74): iterate the entries of the
`KB_MAP` hash map (embedded as an association list, the unspecified hash
iteration order being the list order; values are identifiers of the boxed
async functions) and return a clone of the first binding whose entry test
passes.  The current screen-reader mode read from the `SR_MODE` global is
an explicit argument. -/
def keyevent_match : List (KeyBinding × Nat) → ScreenReaderMode → KeyEvent →
    Option KeyBinding
  | [], _, _ => none
  | (kb, _) :: rest, sr, kbm =>
    if keyevent_entry_matches kb sr kbm then some kb
    else keyevent_match rest sr kbm

/-- `keyevent_match_sync` (keybinds.rs lines 77-94): the source duplicates
the body of `keyevent_match` verbatim with blocking locks, so the
embedding is the same function. -/
def keyevent_match_sync : List (KeyBinding × Nat) → ScreenReaderMode →
    KeyEvent → Option KeyBinding := keyevent_match

/-- `decide_action` (keybinds.rs lines 112-117): if `keyevent_match_sync`
finds a binding, return its `(notify, consume)` pair, else `(false, false)`. -/
def decide_action (kbhm : List (KeyBinding × Nat)) (sr : ScreenReaderMode)
    (ke : KeyEvent) : Bool × Bool :=
  match keyevent_match_sync kbhm sr ke with
  | some kb => (kb.notify, kb.consume)
  | none => (false, false)

/-- `add_keybind` (keybinds.rs lines 40-49): `HashMap::insert` of the
binding (replacing any entry with an equal binding) followed by the
literal return value `true`.  The insertion position within the
unspecified hash iteration order is modelled as appending at the end. -/
def add_keybind (kbhm : List (KeyBinding × Nat)) (kb : KeyBinding)
    (func : Nat) : List (KeyBinding × Nat) × Bool :=
  (kbhm.filter (fun p => decide (p.1 ≠ kb)) ++ [(kb, func)], true)

/-- `remove_keybind` (keybinds.rs lines 51-55): `HashMap::remove` of the
binding, then the literal return value `true` — the result of `remove`
is discarded by the source. -/
def remove_keybind (kbhm : List (KeyBinding × Nat)) (kb : KeyBinding) :
    List (KeyBinding × Nat) × Bool :=
  (kbhm.filter (fun p => decide (p.1 ≠ kb)), true)

/-- The modifier stage of `keybind_match` (lib.rs lines 216-225): with a
supplied filter `Some(kmods)` it requires `kmods != Modifiers::NONE` and
`kb.mods.contains(kmods)`; with no filter it always passes. -/
def keybind_mods_stage (kbMods : Modifiers) (mods : Option Modifiers) : Bool :=
  match mods with
  | some kmods =>
    decide (kmods ≠ Modifiers.NONE) && Modifiers.contains kbMods kmods
  | none => true

/-- The per-entry test of the loop body of `keybind_match`
(lib.rs lines 199-246): the conjunction accumulated in `matched`, in
source order — repeat equality, key stage (a missing key never matches),
modifier stage, consume stage, mode stage (a supplied mode filter requires
`kb.mode == Some(m)`; no filter always passes). -/
def keybind_entry_matches (kb : KeyBinding) (key : Option Key)
    (mods : Option Modifiers) (rpt : Nat) (mode : Option ScreenReaderMode)
    (consume : Option Bool) : Bool :=
  decide (kb.rpt = rpt) &&
  (match key with
   | some kkey => decide (kb.key = kkey)
   | none => false) &&
  keybind_mods_stage kb.mods mods &&
  (match consume with
   | some c => decide (kb.consume = c)
   | none => true) &&
  (match mode with
   | some m => decide (kb.mode = some m)
   | none => true)

/-- `keybind_match` (lib.rs lines 195-253): iterate the entries of the
`KEY_BINDING_FUNCS` map (association-list embedding as for `KB_MAP`) and
return the async function of the first entry whose test passes. -/
def keybind_match : List (KeyBinding × Nat) → Option Key → Option Modifiers →
    Nat → Option ScreenReaderMode → Option Bool → Option Nat
  | [], _, _, _, _, _ => none
  | (kb, afn) :: rest, key, mods, rpt, mode, consume =>
    if keybind_entry_matches kb key mods rpt mode consume then some afn
    else keybind_match rest key mods rpt mode consume

/-- The raw key enumeration of the external rdev crate, with the
constructors named by src/lib.rs; `Unknown n` stands for the remaining
variants (rdev's `Unknown(u32)` and any variant the source's match arms
send to their catch-all). -/
inductive RDevKey where
  | CapsLock | Alt | AltGr | ControlLeft | ControlRight
  | ShiftLeft | ShiftRight | MetaLeft | MetaRight
  | Backspace | Delete | DownArrow | UpArrow | LeftArrow | RightArrow
  | End | Escape
  | F1 | F2 | F3 | F4 | F5 | F6 | F7 | F8 | F9 | F10 | F11 | F12
  | Home | PageDown | PageUp | Return | Space | Tab | PrintScreen
  | ScrollLock | Pause | NumLock | BackQuote
  | Num0 | Num1 | Num2 | Num3 | Num4 | Num5 | Num6 | Num7 | Num8 | Num9
  | Minus | Equal
  | KeyQ | KeyW | KeyE | KeyR | KeyT | KeyY | KeyU | KeyI | KeyO | KeyP
  | LeftBracket | RightBracket
  | KeyA | KeyS | KeyD | KeyF | KeyG | KeyH | KeyJ | KeyK | KeyL
  | SemiColon | Quote | BackSlash | IntlBackslash
  | KeyZ | KeyX | KeyC | KeyV | KeyB | KeyN
  | Comma | Dot | Slash | Insert
  | KpReturn | KpMinus | KpPlus | KpMultiply | KpDivide | KpDelete
  | Function
  | Unknown (n : Nat)

/-- Numeric code of an rdev key; used only to decide equality of the
embedded enumeration (the derived decision procedure overflows the
elaborator on an enumeration of this size). -/
def RDevKey.toNat : RDevKey → Nat
  | .CapsLock => 0
  | .Alt => 1
  | .AltGr => 2
  | .ControlLeft => 3
  | .ControlRight => 4
  | .ShiftLeft => 5
  | .ShiftRight => 6
  | .MetaLeft => 7
  | .MetaRight => 8
  | .Backspace => 9
  | .Delete => 10
  | .DownArrow => 11
  | .UpArrow => 12
  | .LeftArrow => 13
  | .RightArrow => 14
  | .End => 15
  | .Escape => 16
  | .F1 => 17
  | .F2 => 18
  | .F3 => 19
  | .F4 => 20
  | .F5 => 21
  | .F6 => 22
  | .F7 => 23
  | .F8 => 24
  | .F9 => 25
  | .F10 => 26
  | .F11 => 27
  | .F12 => 28
  | .Home => 29
  | .PageDown => 30
  | .PageUp => 31
  | .Return => 32
  | .Space => 33
  | .Tab => 34
  | .PrintScreen => 35
  | .ScrollLock => 36
  | .Pause => 37
  | .NumLock => 38
  | .BackQuote => 39
  | .Num0 => 40
  | .Num1 => 41
  | .Num2 => 42
  | .Num3 => 43
  | .Num4 => 44
  | .Num5 => 45
  | .Num6 => 46
  | .Num7 => 47
  | .Num8 => 48
  | .Num9 => 49
  | .Minus => 50
  | .Equal => 51
  | .KeyQ => 52
  | .KeyW => 53
  | .KeyE => 54
  | .KeyR => 55
  | .KeyT => 56
  | .KeyY => 57
  | .KeyU => 58
  | .KeyI => 59
  | .KeyO => 60
  | .KeyP => 61
  | .LeftBracket => 62
  | .RightBracket => 63
  | .KeyA => 64
  | .KeyS => 65
  | .KeyD => 66
  | .KeyF => 67
  | .KeyG => 68
  | .KeyH => 69
  | .KeyJ => 70
  | .KeyK => 71
  | .KeyL => 72
  | .SemiColon => 73
  | .Quote => 74
  | .BackSlash => 75
  | .IntlBackslash => 76
  | .KeyZ => 77
  | .KeyX => 78
  | .KeyC => 79
  | .KeyV => 80
  | .KeyB => 81
  | .KeyN => 82
  | .Comma => 83
  | .Dot => 84
  | .Slash => 85
  | .Insert => 86
  | .KpReturn => 87
  | .KpMinus => 88
  | .KpPlus => 89
  | .KpMultiply => 90
  | .KpDivide => 91
  | .KpDelete => 92
  | .Function => 93
  | .Unknown n => n + 94

/-- Partial inverse of `RDevKey.toNat`. -/
def RDevKey.ofNat : Nat → RDevKey
  | 0 => .CapsLock
  | 1 => .Alt
  | 2 => .AltGr
  | 3 => .ControlLeft
  | 4 => .ControlRight
  | 5 => .ShiftLeft
  | 6 => .ShiftRight
  | 7 => .MetaLeft
  | 8 => .MetaRight
  | 9 => .Backspace
  | 10 => .Delete
  | 11 => .DownArrow
  | 12 => .UpArrow
  | 13 => .LeftArrow
  | 14 => .RightArrow
  | 15 => .End
  | 16 => .Escape
  | 17 => .F1
  | 18 => .F2
  | 19 => .F3
  | 20 => .F4
  | 21 => .F5
  | 22 => .F6
  | 23 => .F7
  | 24 => .F8
  | 25 => .F9
  | 26 => .F10
  | 27 => .F11
  | 28 => .F12
  | 29 => .Home
  | 30 => .PageDown
  | 31 => .PageUp
  | 32 => .Return
  | 33 => .Space
  | 34 => .Tab
  | 35 => .PrintScreen
  | 36 => .ScrollLock
  | 37 => .Pause
  | 38 => .NumLock
  | 39 => .BackQuote
  | 40 => .Num0
  | 41 => .Num1
  | 42 => .Num2
  | 43 => .Num3
  | 44 => .Num4
  | 45 => .Num5
  | 46 => .Num6
  | 47 => .Num7
  | 48 => .Num8
  | 49 => .Num9
  | 50 => .Minus
  | 51 => .Equal
  | 52 => .KeyQ
  | 53 => .KeyW
  | 54 => .KeyE
  | 55 => .KeyR
  | 56 => .KeyT
  | 57 => .KeyY
  | 58 => .KeyU
  | 59 => .KeyI
  | 60 => .KeyO
  | 61 => .KeyP
  | 62 => .LeftBracket
  | 63 => .RightBracket
  | 64 => .KeyA
  | 65 => .KeyS
  | 66 => .KeyD
  | 67 => .KeyF
  | 68 => .KeyG
  | 69 => .KeyH
  | 70 => .KeyJ
  | 71 => .KeyK
  | 72 => .KeyL
  | 73 => .SemiColon
  | 74 => .Quote
  | 75 => .BackSlash
  | 76 => .IntlBackslash
  | 77 => .KeyZ
  | 78 => .KeyX
  | 79 => .KeyC
  | 80 => .KeyV
  | 81 => .KeyB
  | 82 => .KeyN
  | 83 => .Comma
  | 84 => .Dot
  | 85 => .Slash
  | 86 => .Insert
  | 87 => .KpReturn
  | 88 => .KpMinus
  | 89 => .KpPlus
  | 90 => .KpMultiply
  | 91 => .KpDivide
  | 92 => .KpDelete
  | 93 => .Function
  | n + 94 => .Unknown n

/-- Proof that `RDevKey.ofNat` retracts `RDevKey.toNat`; a definition
because the decidable-equality instance below, which the remaining
definitions use, is built from it. -/
def RDevKey.ofNat_toNat : ∀ k : RDevKey, RDevKey.ofNat k.toNat = k := by
  intro k
  cases k <;> rfl

/-- Proof that `RDevKey.toNat` is injective. -/
def RDevKey.toNat_injective :
    ∀ a b : RDevKey, a.toNat = b.toNat → a = b := by
  intro a b h
  rw [← RDevKey.ofNat_toNat a, ← RDevKey.ofNat_toNat b, h]

instance : DecidableEq RDevKey := fun a b =>
  match Nat.decEq a.toNat b.toNat with
  | isTrue h => isTrue (RDevKey.toNat_injective a b h)
  | isFalse h => isFalse (fun hh => h (congrArg RDevKey.toNat hh))

/-- `vector_eq` (lib.rs lines 68-73): equal lengths and pairwise equal
`Debug` renderings; for the rdev key enumeration two values have the same
`Debug` string exactly when they are equal, so the comparison is pairwise
equality over the zip. -/
def vector_eq (va vb : List RDevKey) : Bool :=
  decide (va.length = vb.length) &&
  (va.zip vb).all (fun p => decide (p.1 = p.2))

/-- The modifier row of `rdev_keys_to_odilia_modifiers` (lib.rs lines
78-89): the fixed raw-key to modifier-bit table; unrecognized keys
contribute the empty bitset. -/
def rdev_key_modifier : RDevKey → Modifiers
  | .CapsLock => Modifiers.ODILIA
  | .Alt => Modifiers.ALT_L
  | .AltGr => Modifiers.ALT_R
  | .ControlLeft => Modifiers.CONTROL_L
  | .ControlRight => Modifiers.CONTROL_R
  | .ShiftLeft => Modifiers.SHIFT_L
  | .ShiftRight => Modifiers.SHIFT_R
  | .MetaLeft => Modifiers.META_L
  | .MetaRight => Modifiers.META_R
  | _ => Modifiers.NONE

/-- `rdev_keys_to_odilia_modifiers` (lib.rs lines 75-92): fold every held
key through the table, combining with bitwise OR starting from the empty
bitset. -/
def rdev_keys_to_odilia_modifiers (keys : List RDevKey) : Modifiers :=
  keys.foldl (fun modifiers k => modifiers ||| rdev_key_modifier k)
    Modifiers.NONE

/-- One row of the key table of `rdev_keys_to_single_odilia_key`
(lib.rs lines 99-187): the fixed raw-key to logical-key lookup; keys not
in the table (modifier keys among them) map to `none`. -/
def rdev_key_to_odilia_key : RDevKey → Option Key
  | .Backspace => some .Backspace
  | .Delete => some .Delete
  | .DownArrow => some .Down
  | .UpArrow => some .Up
  | .LeftArrow => some .Left
  | .RightArrow => some .Right
  | .End => some .End
  | .Escape => some .Escape
  | .F1 => some .F1
  | .F2 => some .F2
  | .F3 => some .F3
  | .F4 => some .F4
  | .F5 => some .F5
  | .F6 => some .F6
  | .F7 => some .F7
  | .F8 => some .F8
  | .F9 => some .F9
  | .F10 => some .F10
  | .F11 => some .F11
  | .F12 => some .F12
  | .Home => some .Home
  | .PageDown => some .PageDown
  | .PageUp => some .PageUp
  | .Return => some .Return
  | .Space => some .Space
  | .Tab => some .Tab
  | .PrintScreen => some .PrintScreen
  | .ScrollLock => some .ScrollLock
  | .Pause => some .Pause
  | .NumLock => some .NumLock
  | .BackQuote => some (.Other '`')
  | .Num0 => some .Kp0
  | .Num1 => some .Kp1
  | .Num2 => some .Kp2
  | .Num3 => some .Kp3
  | .Num4 => some .Kp4
  | .Num5 => some .Kp5
  | .Num6 => some .Kp6
  | .Num7 => some .Kp7
  | .Num8 => some .Kp8
  | .Num9 => some .Kp9
  | .Minus => some (.Other '-')
  | .Equal => some (.Other '=')
  | .KeyQ => some (.Other 'q')
  | .KeyW => some (.Other 'w')
  | .KeyE => some (.Other 'e')
  | .KeyR => some (.Other 'r')
  | .KeyT => some (.Other 't')
  | .KeyY => some (.Other 'y')
  | .KeyU => some (.Other 'u')
  | .KeyI => some (.Other 'i')
  | .KeyO => some (.Other 'o')
  | .KeyP => some (.Other 'p')
  | .LeftBracket => some (.Other '[')
  | .RightBracket => some (.Other ']')
  | .KeyA => some (.Other 'a')
  | .KeyS => some (.Other 's')
  | .KeyD => some (.Other 'd')
  | .KeyF => some (.Other 'f')
  | .KeyG => some (.Other 'g')
  | .KeyH => some (.Other 'h')
  | .KeyJ => some (.Other 'j')
  | .KeyK => some (.Other 'k')
  | .KeyL => some (.Other 'l')
  | .SemiColon => some (.Other ';')
  | .Quote => some (.Other '\'')
  | .BackSlash => some (.Other '\\')
  | .IntlBackslash => some (.Other '\\')
  | .KeyZ => some (.Other 'z')
  | .KeyX => some (.Other 'x')
  | .KeyC => some (.Other 'c')
  | .KeyV => some (.Other 'v')
  | .KeyB => some (.Other 'b')
  | .KeyN => some (.Other 'n')
  | .Comma => some (.Other ',')
  | .Dot => some (.Other '.')
  | .Slash => some (.Other '/')
  | .Insert => some .Insert
  | .KpReturn => some .KpReturn
  | .KpMinus => some .KpMinus
  | .KpPlus => some .KpPlus
  | .KpMultiply => some .KpMultiply
  | .KpDivide => some .KpDivide
  | .KpDelete => some .KpDelete
  | .Function => some .Function
  | _ => none

/-- `rdev_keys_to_single_odilia_key` (lib.rs lines 97-193): scan the held
keys in order and return the first that the table maps to a logical key;
`none` when no held key maps (for example when only modifiers are held). -/
def rdev_keys_to_single_odilia_key : List RDevKey → Option Key
  | [] => none
  | k :: rest =>
    match rdev_key_to_odilia_key k with
    | some m2 => some m2
    | none => rdev_keys_to_single_odilia_key rest

/-- `Vec::dedup` as called on `current_keys` (lib.rs line 261): removes
only CONSECUTIVE duplicate elements, collapsing each run of equal
elements to a single copy (for dedup by equality, keeping the first or
the last element of a run of equal elements produces the same list; the
recursion here keeps the last, which is structural). -/
def vecDedup : List RDevKey → List RDevKey
  | [] => []
  | [a] => [a]
  | a :: b :: rest =>
    if a = b then vecDedup (b :: rest) else a :: vecDedup (b :: rest)

/-- The raw event type of the external rdev crate as consumed by
lib.rs: a key press, a key release, or any other event kind (the
catch-all arm of `rdev_event_to_func_to_call`). -/
inductive REvent where
  | press (k : RDevKey)
  | release (k : RDevKey)
  | other

/-- `rdev_event_to_func_to_call` (lib.rs lines 256-288).  State-passing
embedding: takes the registry, the event and the current/last held-key
vectors, and returns the optional matched async function together with
the updated vectors.  On a press: `last = current`, push the key,`dedup`
(consecutive duplicates only), and when the vectors differ query
`keybind_match` with the normalized key, `Some(mods)`, repeat `1`, no
mode filter and no consume filter.  On a release: `last = current` and
the released key is removed from `current` via `retain`.  Other events
do nothing. -/
def rdev_event_to_func_to_call (kbs : List (KeyBinding × Nat))
    (event : REvent) (current_keys last_keys : List RDevKey) :
    Option Nat × List RDevKey × List RDevKey :=
  match event with
  | .press x =>
    let last := current_keys
    let current := vecDedup (current_keys ++ [x])
    if !(vector_eq last current) then
      (keybind_match kbs (rdev_keys_to_single_odilia_key current)
        (some (rdev_keys_to_odilia_modifiers current)) 1 none none,
       current, last)
    else
      (none, current, last)
  | .release x =>
    (none, current_keys.filter (fun k => decide (k ≠ x)), current_keys)
  | .other => (none, current_keys, last_keys)

/-- Replay of a sequence of raw events through
`rdev_event_to_func_to_call`, in arrival order, threading the
current/last held-key vectors exactly as the `CURRENT_KEYS` and
`LAST_KEYS` globals are threaded by the grab callback (lib.rs lines
327-334); collects each event's optional matched function. -/
def replay (kbs : List (KeyBinding × Nat)) :
    List REvent → List RDevKey × List RDevKey →
    List (Option Nat) × (List RDevKey × List RDevKey)
  | [], st => ([], st)
  | ev :: rest, st =>
    let r := rdev_event_to_func_to_call kbs ev st.1 st.2
    let rest' := replay kbs rest (r.2.1, r.2.2)
    (r.1 :: rest'.1, rest'.2)

/-- `EventAction` (lib.rs lines 35-43): what to do with an intercepted
event — pass it through, notify observers while passing it through, or
consume it (suppress it and notify observers). -/
inductive EventAction where
  | Passthrough
  | Notify
  | Consume
  deriving DecidableEq

/-- `EventAction::notify` (lib.rs lines 48-50):
`matches!(self, Self::Notify | Self::Consume)`. -/
def EventAction.notify (a : EventAction) : Bool :=
  decide (a = EventAction.Notify) || decide (a = EventAction.Consume)

/-- Outcome of one invocation of the closure passed to `rdev::grab`
by `init`: whether the enqueue-failure warning was printed, and the value
returned to rdev (`none` suppresses the event, `some ev` propagates it). -/
structure CallbackOutcome where
  warned : Bool
  propagate : Option REvent

/-- The notification/consumption tail of the `rdev::grab` callback in
`init` (lib.rs lines 335-353), one invocation.  `tx_set` and
`decideAction` model the thread-local `TX` and `DECIDE_ACTION` cells
(`Except.error` is a panic of the two `unwrap`s on unset cells);
`send_ok` is the result of `tx.blocking_send(ev.clone())`.  When the
action's `notify()` holds and the send fails, the failure is only
printed (`warned`); the callback then returns `None` to rdev exactly
when the action is `Consume`, and `Some(ev)` otherwise. -/
def grab_callback (tx_set : Bool) (decideAction : Option (REvent → EventAction))
    (send_ok : Bool) (ev : REvent) : Except Unit CallbackOutcome :=
  if tx_set = false then Except.error ()
  else
    match decideAction with
    | none => Except.error ()
    | some da =>
      let action := da ev
      let warned := action.notify && !send_ok
      Except.ok
        { warned := warned
          propagate := if action = EventAction.Consume then none else some ev }

/-- The thread-local `OnceCell`s of a capture thread (lib.rs lines
54-60): whether `TX` and `DECIDE_ACTION` have been set on that thread.
`std::thread::spawn` starts every new thread with both cells unset. -/
structure ThreadLocals where
  tx_set : Bool
  decide_set : Bool
  deriving DecidableEq

/-- The thread-local state of a freshly spawned capture thread: both
`OnceCell`s unset. -/
def fresh_thread_locals : ThreadLocals := { tx_set := false, decide_set := false }

/-- Startup of the thread spawned by `init` (lib.rs lines 315-325):
`TX.with(|g| g.set(tx).unwrap())` panics iff `TX` is already set on this
thread, then `DECIDE_ACTION.set` runs
`panic!("init() should only be called once")` iff `DECIDE_ACTION` is
already set on this thread; otherwise both cells become set.
`Except.error` marks a panic of the spawned thread. -/
def spawned_thread_start (tl : ThreadLocals) : Except Unit ThreadLocals :=
  if tl.tx_set then Except.error ()
  else if tl.decide_set then Except.error ()
  else Except.ok { tx_set := true, decide_set := true }

/-- The process-global state touched by `init`: whether the static
`KEY_BINDING_FUNCS` `OnceCell` (lib.rs line 61) has been set. -/
structure ProcessState where
  kbf_set : Bool
  deriving DecidableEq

/-- One call of `init` (lib.rs lines 305-358).  The call sets
`KEY_BINDING_FUNCS` (a failed `set` on the second call is discarded into
`_res`), creates a fresh channel, spawns a capture thread whose
thread-local cells start unset, and unconditionally returns the
receiving end.  Result: the new process state, whether the call returned
a receiver normally (`init` has no panic or early-return path of its
own), and the startup outcome of the spawned thread. -/
def init_model (_g : ProcessState) :
    ProcessState × Bool × Except Unit ThreadLocals :=
  ({ kbf_set := true }, true, spawned_thread_start fresh_thread_locals)

/-- `MAX_EVENTS` (lib.rs line 295): the fixed capacity passed to
`mpsc::channel` by `init`. -/
def MAX_EVENTS : Nat := 256

/-- Normalization of a registry entry that discards its binding's mode
and consume fields; used to state that the capture path's query (no mode
filter, no consume filter) is insensitive to them. -/
def clearModeConsume (p : KeyBinding × Nat) : KeyBinding × Nat :=
  ({ p.1 with mode := none, consume := false }, p.2)

/-- Fixture: the binding Ctrl+a, repeat 1, any mode, notify and consume
set (the registration scenario of spec section 8). -/
def kbCtrlA : KeyBinding :=
  { key := Key.Other 'a', mods := Modifiers.CONTROL_L, rpt := 1,
    mode := none, notify := true, consume := true }

/-- Fixture: the binding Ctrl+a gated on the browse mode. -/
def kbModeBrowse : KeyBinding :=
  { key := Key.Other 'a', mods := Modifiers.CONTROL_L, rpt := 1,
    mode := some browseMode, notify := true, consume := true }

/-- Fixture: a bare `a` binding with empty modifiers and both flags
cleared. -/
def kbSilentA : KeyBinding :=
  { key := Key.Other 'a', mods := Modifiers.NONE, rpt := 1,
    mode := none, notify := false, consume := false }

/-- Fixture: a binding with repeat count 2. -/
def kbRpt2 : KeyBinding :=
  { key := Key.Other 'b', mods := Modifiers.NONE, rpt := 2,
    mode := none, notify := true, consume := true }

/-- Fixture event: plain `a`, no modifiers, repeat 1. -/
def evA0 : KeyEvent :=
  { key := Key.Other 'a', mods := Modifiers.NONE, rpt := 1 }

/-- Fixture event: `a` with left control held, repeat 1. -/
def evCtrlA : KeyEvent :=
  { key := Key.Other 'a', mods := Modifiers.CONTROL_L, rpt := 1 }

/-- A binding returned by `keyevent_match` passed its entry test. -/
theorem keyevent_match_some_entry (l : List (KeyBinding × Nat))
    (sr : ScreenReaderMode) (ev : KeyEvent) (kb : KeyBinding)
    (h : keyevent_match l sr ev = some kb) :
    keyevent_entry_matches kb sr ev = true := by
  induction l with
  | nil => simp [keyevent_match] at h
  | cons p rest ih =>
    obtain ⟨kb1, a1⟩ := p
    rw [keyevent_match] at h
    by_cases hm : keyevent_entry_matches kb1 sr ev
    · simp only [hm, if_true, Option.some.injEq] at h
      rw [← h]
      exact hm
    · simp only [hm, if_false] at h
      exact ih h

/-- When no entry of the first list passes the test, `keyevent_match` on
the concatenation looks only at the second list. -/
theorem keyevent_match_append (l1 l2 : List (KeyBinding × Nat))
    (sr : ScreenReaderMode) (ev : KeyEvent)
    (h : ∀ p ∈ l1, keyevent_entry_matches p.1 sr ev = false) :
    keyevent_match (l1 ++ l2) sr ev = keyevent_match l2 sr ev := by
  induction l1 with
  | nil => rfl
  | cons p rest ih =>
    obtain ⟨kb1, a1⟩ := p
    have h1 : keyevent_entry_matches kb1 sr ev = false := h (kb1, a1) (by simp)
    rw [List.cons_append, keyevent_match, h1]
    simp only [Bool.false_eq_true, if_false]
    exact ih (fun p hp => h p (List.mem_cons_of_mem _ hp))

/-- When no entry passes the test, `keyevent_match` returns nothing. -/
theorem keyevent_match_none (l : List (KeyBinding × Nat))
    (sr : ScreenReaderMode) (ev : KeyEvent)
    (h : ∀ p ∈ l, keyevent_entry_matches p.1 sr ev = false) :
    keyevent_match l sr ev = none := by
  induction l with
  | nil => rfl
  | cons p rest ih =>
    obtain ⟨kb1, a1⟩ := p
    have h1 : keyevent_entry_matches kb1 sr ev = false := h (kb1, a1) (by simp)
    rw [keyevent_match, h1]
    simp only [Bool.false_eq_true, if_false]
    exact ih (fun p hp => h p (List.mem_cons_of_mem _ hp))

/-- The entry test of a binding with no mode requirement does not depend
on the current screen-reader mode. -/
theorem keyevent_entry_matches_mode_none (kb : KeyBinding)
    (sr sr' : ScreenReaderMode) (ev : KeyEvent) (h : kb.mode = none) :
    keyevent_entry_matches kb sr ev = keyevent_entry_matches kb sr' ev := by
  unfold keyevent_entry_matches
  rw [h]

/-- A result of `keybind_match` is the function of some entry whose test
passed. -/
theorem keybind_match_some_entry (l : List (KeyBinding × Nat))
    (key : Option Key) (mods : Option Modifiers) (rpt : Nat)
    (mode : Option ScreenReaderMode) (consume : Option Bool) (a : Nat)
    (h : keybind_match l key mods rpt mode consume = some a) :
    ∃ p, p ∈ l ∧ p.2 = a ∧
      keybind_entry_matches p.1 key mods rpt mode consume = true := by
  induction l with
  | nil => simp [keybind_match] at h
  | cons p rest ih =>
    obtain ⟨kb1, a1⟩ := p
    rw [keybind_match] at h
    by_cases hm : keybind_entry_matches kb1 key mods rpt mode consume
    · simp only [hm, if_true, Option.some.injEq] at h
      exact ⟨(kb1, a1), by simp, h, hm⟩
    · simp only [hm, if_false] at h
      obtain ⟨p, hp, ha, hmm⟩ := ih h
      exact ⟨p, List.mem_cons_of_mem _ hp, ha, hmm⟩

/-- An entry that passes the `keybind_match` test has the queried repeat
count. -/
theorem keybind_entry_matches_rpt (kb : KeyBinding) (key : Option Key)
    (mods : Option Modifiers) (rpt : Nat) (mode : Option ScreenReaderMode)
    (consume : Option Bool)
    (h : keybind_entry_matches kb key mods rpt mode consume = true) :
    kb.rpt = rpt := by
  unfold keybind_entry_matches at h
  simp only [Bool.and_eq_true, decide_eq_true_eq] at h
  exact h.1.1.1.1

/-- Clearing mode and consume of every registry entry does not change
`keybind_match` under a query with no mode filter and no consume
filter. -/
theorem keybind_match_clearModeConsume (l : List (KeyBinding × Nat))
    (key : Option Key) (mods : Option Modifiers) (rpt : Nat) :
    keybind_match (l.map clearModeConsume) key mods rpt none none =
      keybind_match l key mods rpt none none := by
  induction l with
  | nil => rfl
  | cons p rest ih =>
    obtain ⟨kb1, a1⟩ := p
    rw [List.map_cons, keybind_match, keybind_match]
    have he : keybind_entry_matches (clearModeConsume (kb1, a1)).1 key mods
        rpt none none = keybind_entry_matches kb1 key mods rpt none none := rfl
    rw [he]
    by_cases hm : keybind_entry_matches kb1 key mods rpt none none
    · simp [hm, clearModeConsume]
    · simp only [hm, Bool.false_eq_true, if_false]
      exact ih

/-- Claim C1, counterexample.  The claim states one modifier test for
binding matching: success iff both modifier sets are empty or they share
a set bit, so that a binding requiring only Ctrl matches an event with
Ctrl+Shift held, and an empty-modifier binding matches an empty-modifier
event.  `keybind_match` (lib.rs lines 216-225) violates both parts: a
Ctrl-only binding does not match a query whose modifiers are
Ctrl+Shift (its stage demands containment of the event modifiers in the
binding's, not a shared bit), and an empty-modifier binding does not
match a query with empty modifiers (its stage demands a nonempty event
modifier set), with every other condition of the query satisfied. -/
theorem C1_keybind_match_rejects_shared_bit :
    keybind_match [(kbCtrlA, 7)] (some (Key.Other 'a'))
        (some (Modifiers.CONTROL_L ||| Modifiers.SHIFT_L)) 1 none none = none ∧
    Modifiers.intersects kbCtrlA.mods
      (Modifiers.CONTROL_L ||| Modifiers.SHIFT_L) = true ∧
    kbCtrlA.key = Key.Other 'a' ∧ kbCtrlA.rpt = 1 ∧
    keybind_match [(kbSilentA, 3)] (some (Key.Other 'a'))
        (some Modifiers.NONE) 1 none none = none ∧
    kbSilentA.mods = Modifiers.NONE := by
  decide

/-- Claim C1, amended.  The claimed modifier test is exactly the one of
`keyevent_match` / `keyevent_match_sync` (keybinds.rs line 65): it
succeeds iff both modifier sets are empty or the two sets share at least
one set bit.  The modifier stage of `keybind_match` (lib.rs) instead
succeeds, when a filter is supplied, iff the supplied modifier set is
nonempty and contained bit-for-bit in the binding's modifier set. -/
theorem C1_modifier_tests :
    (∀ a b : Modifiers, keyevent_mod_test a b = true ↔
      ((a = Modifiers.NONE ∧ b = Modifiers.NONE) ∨ a &&& b ≠ 0)) ∧
    (∀ a b : Modifiers, keybind_mods_stage a (some b) = true ↔
      (b ≠ Modifiers.NONE ∧ a &&& b = b)) := by
  constructor
  · intro a b
    simp [keyevent_mod_test, Modifiers.intersects, Modifiers.NONE]
  · intro a b
    simp [keybind_mods_stage, Modifiers.contains, Modifiers.NONE]

/-- Claim C4, counterexample.  The claim states that a matched binding
always yields Notify or Consume (so every matched event is surfaced on
the notification channel).  But `decide_action` returns the binding's
own `(notify, consume)` pair: a matching binding with both flags false
yields `(false, false)` — the Passthrough decision — although it
matched, and the event is not surfaced. -/
theorem C4_matched_binding_yields_passthrough :
    keyevent_match_sync [(kbSilentA, 1)] commandMoode evA0 = some kbSilentA ∧
    decide_action [(kbSilentA, 1)] commandMoode evA0 = (false, false) ∧
    kbSilentA.notify = false ∧ kbSilentA.consume = false := by
  decide

/-- Claim C4, amended.  On no match `decide_action` returns
`(false, false)` (Passthrough); on a match it returns the matched
binding's own notify and consume flags, so a matched event is surfaced
only when that binding's notify flag is set. -/
theorem C4_decide_action_returns_binding_flags :
    ∀ (l : List (KeyBinding × Nat)) (sr : ScreenReaderMode) (ev : KeyEvent),
      decide_action l sr ev =
        (((keyevent_match_sync l sr ev).map KeyBinding.notify).getD false,
         ((keyevent_match_sync l sr ev).map KeyBinding.consume).getD false) := by
  intro l sr ev
  unfold decide_action
  cases keyevent_match_sync l sr ev <;> simp

/-- Claim C6, counterexample.  The claim states `remove_keybind` returns
true iff an entry was actually removed, hence false when the binding is
absent; but on the empty registry, where nothing can be removed, it
still returns true (keybinds.rs line 54 returns the literal `true`). -/
theorem C6_remove_absent_returns_true :
    remove_keybind ([] : List (KeyBinding × Nat)) kbCtrlA = ([], true) := rfl

/-- Claim C6, amended.  `remove_keybind` deletes the entry when present
(no entry for the binding remains), is a no-op when the binding is
absent, and always returns `true`, whether or not anything was
removed. -/
theorem C6_remove_keybind_semantics :
    ∀ (l : List (KeyBinding × Nat)) (kb : KeyBinding),
      (remove_keybind l kb).2 = true ∧
      (∀ p ∈ (remove_keybind l kb).1, p.1 ≠ kb) ∧
      ((∀ p ∈ l, p.1 ≠ kb) → (remove_keybind l kb).1 = l) := by
  intro l kb
  refine ⟨rfl, ?_, ?_⟩
  · intro p hp
    simp only [remove_keybind] at hp
    have h := List.mem_filter.mp hp
    simpa using h.2
  · intro h
    simp only [remove_keybind]
    apply List.filter_eq_self.mpr
    intro p hp
    simpa using h p hp

/-- Claim C6, witness for the amended theorem: removing a binding absent
from a one-entry registry returns `true` and leaves the registry
unchanged. -/
theorem C6_remove_keybind_semantics_witness :
    (remove_keybind [(kbCtrlA, 7)] kbSilentA).2 = true ∧
    (∀ p ∈ (remove_keybind [(kbCtrlA, 7)] kbSilentA).1, p.1 ≠ kbSilentA) ∧
    (remove_keybind [(kbCtrlA, 7)] kbSilentA).1 = [(kbCtrlA, 7)] :=
  ⟨(C6_remove_keybind_semantics [(kbCtrlA, 7)] kbSilentA).1,
   (C6_remove_keybind_semantics [(kbCtrlA, 7)] kbSilentA).2.1,
   (C6_remove_keybind_semantics [(kbCtrlA, 7)] kbSilentA).2.2 (by decide)⟩

/-- Claim C7, counterexample.  The claim states that on an enqueue
failure the event is passed through to the foreground application rather
than suppressed; but when the decided action is Consume and the send
fails, the grab callback logs the warning and still returns `None` to
rdev — the event is suppressed (and, its send having failed, lost). -/
theorem C7_consume_event_suppressed_on_send_failure :
    grab_callback true (some (fun _ => EventAction.Consume)) false
      (REvent.press RDevKey.KeyA) =
    Except.ok { warned := true, propagate := none } := rfl

/-- Claim C7, amended.  With the thread-local cells initialized, the
grab callback never panics whatever the send outcome (the failure is
only logged); the propagate/suppress decision is independent of the send
outcome (so Notify events are passed through but Consume events stay
suppressed even when their send failed); and on a send failure the
warning is printed exactly when the action was Notify/Consume-worthy. -/
theorem C7_send_failure_logged_and_nonfatal :
    (∀ (da : REvent → EventAction) (send_ok : Bool) (ev : REvent),
      ∃ w r, grab_callback true (some da) send_ok ev =
        Except.ok { warned := w, propagate := r }) ∧
    (∀ (da : REvent → EventAction) (s s' : Bool) (ev : REvent),
      (grab_callback true (some da) s ev).map CallbackOutcome.propagate =
        (grab_callback true (some da) s' ev).map CallbackOutcome.propagate) ∧
    (∀ (da : REvent → EventAction) (ev : REvent),
      (grab_callback true (some da) false ev).map CallbackOutcome.warned =
        Except.ok ((da ev).notify)) := by
  refine ⟨?_, ?_, ?_⟩
  · intro da send_ok ev
    exact ⟨_, _, rfl⟩
  · intro da s s' ev
    simp [grab_callback, Except.map]
  · intro da ev
    simp [grab_callback, Except.map]

/-- Claim C8.  The claim (and the doc comment of `init`) states a second
call to `init` is a fatal error, never a normal return of a second
receiver.  But the once-guard lives in `thread_local!` `OnceCell`s that
every newly spawned capture thread starts with unset, so the second call
also returns a receiver normally and its spawned thread starts without
panicking; only the ignored `KEY_BINDING_FUNCS.set` result records that
`init` ran before. -/
theorem C8_second_init_call_returns_normally :
    init_model (init_model { kbf_set := false }).1 =
      ({ kbf_set := true }, true,
        Except.ok { tx_set := true, decide_set := true }) := rfl

/-- Claim C2.  The claim (and spec section 8) states the held set after
replay equals the deduplicated presses minus releases, and that a press
of an already-held key leaves the held set at the previous snapshot and
is classified as a repeat with no binding match attempted.  The code
uses `Vec::dedup`, which removes only consecutive duplicates: replaying
Press(ControlLeft), Press(KeyA), Press(ControlLeft) leaves the held
vector `[ControlLeft, KeyA, ControlLeft]` — ControlLeft duplicated — and
the third press (of the already-held ControlLeft) is treated as a new
transition (`vector_eq` is false), so the Ctrl+a binding fires a second
time (`some 7`) instead of being classified as a repeat.  The release
no-op part of the claim does hold, as the last conjunct shows. -/
theorem C2_nonadjacent_repress_fires_again :
    replay [(kbCtrlA, 7)]
        [REvent.press RDevKey.ControlLeft, REvent.press RDevKey.KeyA,
         REvent.press RDevKey.ControlLeft] ([], []) =
      ([none, some 7, some 7],
        ([RDevKey.ControlLeft, RDevKey.KeyA, RDevKey.ControlLeft],
         [RDevKey.ControlLeft, RDevKey.KeyA])) ∧
    vector_eq [RDevKey.ControlLeft, RDevKey.KeyA]
      [RDevKey.ControlLeft, RDevKey.KeyA, RDevKey.ControlLeft] = false ∧
    rdev_event_to_func_to_call [] (REvent.release RDevKey.KeyA)
        [RDevKey.ControlLeft] [] =
      (none, [RDevKey.ControlLeft], [RDevKey.ControlLeft]) :=
  ⟨rfl, rfl, rfl⟩

/-- Claim C3, counterexample.  The claim states a binding with
`mode = Some(X)` never matches when the current mode is not X.  On the
capture thread's live path (`rdev_event_to_func_to_call`), the query
passes no mode filter to `keybind_match`, whose mode stage then passes
every binding, so a binding gated on the browse mode fires although the
current mode (the initial `CommandMoode`, or any other — the path never
reads the mode at all) differs from it. -/
theorem C3_mode_restricted_binding_fires_on_capture_path :
    rdev_event_to_func_to_call [(kbModeBrowse, 7)] (REvent.press RDevKey.KeyA)
        [RDevKey.ControlLeft] [] =
      (some 7, [RDevKey.ControlLeft, RDevKey.KeyA], [RDevKey.ControlLeft]) ∧
    kbModeBrowse.mode = some browseMode ∧ browseMode ≠ commandMoode :=
  ⟨rfl, rfl, by decide⟩

/-- Claim C3, amended.  The claimed mode gating holds for
`keyevent_match` (keybinds.rs): a binding returned while the current
mode is `sr` and carrying `mode = Some(m)` has `m = sr`, and over a
registry of bindings with no mode requirement the result does not depend
on the current mode.  (The capture path, by contrast, queries
`keybind_match` with no mode filter and so ignores the current mode, as
the counterexample shows.) -/
theorem C3_keyevent_match_mode_gating :
    (∀ (l : List (KeyBinding × Nat)) (sr : ScreenReaderMode) (ev : KeyEvent)
        (kb : KeyBinding) (m : ScreenReaderMode),
      keyevent_match l sr ev = some kb → kb.mode = some m → m = sr) ∧
    (∀ (l : List (KeyBinding × Nat)) (sr sr' : ScreenReaderMode)
        (ev : KeyEvent),
      (∀ p ∈ l, p.1.mode = none) →
      keyevent_match l sr ev = keyevent_match l sr' ev) := by
  constructor
  · intro l sr ev kb m h hm
    have he := keyevent_match_some_entry l sr ev kb h
    unfold keyevent_entry_matches at he
    rw [hm] at he
    simp only [Bool.and_eq_true, decide_eq_true_eq] at he
    exact he.2
  · intro l sr sr' ev h
    induction l with
    | nil => rfl
    | cons p rest ih =>
      obtain ⟨kb1, a1⟩ := p
      rw [keyevent_match, keyevent_match,
        keyevent_entry_matches_mode_none kb1 sr sr' ev (h (kb1, a1) (by simp))]
      by_cases hm : keyevent_entry_matches kb1 sr' ev
      · simp [hm]
      · simp only [hm, Bool.false_eq_true, if_false]
        exact ih (fun p hp => h p (List.mem_cons_of_mem _ hp))

/-- Claim C3, witness for the amended theorem: a browse-mode binding
matched under the browse mode indeed carries that very mode, and a
registry holding only the mode-free Ctrl+a binding matches identically
under the command and browse modes. -/
theorem C3_keyevent_match_mode_gating_witness :
    browseMode = browseMode ∧
    keyevent_match [(kbCtrlA, 7)] commandMoode evCtrlA =
      keyevent_match [(kbCtrlA, 7)] browseMode evCtrlA :=
  ⟨C3_keyevent_match_mode_gating.1 [(kbModeBrowse, 7)] browseMode evCtrlA
      kbModeBrowse browseMode (by decide) rfl,
   C3_keyevent_match_mode_gating.2 [(kbCtrlA, 7)] commandMoode browseMode
      evCtrlA (by decide)⟩

/-- Claim C10.  On the capture thread's live path every registry query
is issued with repeat fixed to 1, no mode filter and no consume filter:
clearing the mode and consume fields of every registry entry does not
change the path's result, and any function the path returns belongs to
an entry whose binding has repeat count 1 (so a binding with repeat
different from 1 can never fire from the capture thread). -/
theorem C10_capture_path_query_semantics :
    (∀ (kbs : List (KeyBinding × Nat)) (ev : REvent)
        (cur last : List RDevKey),
      rdev_event_to_func_to_call (kbs.map clearModeConsume) ev cur last =
        rdev_event_to_func_to_call kbs ev cur last) ∧
    (∀ (kbs : List (KeyBinding × Nat)) (ev : REvent)
        (cur last : List RDevKey) (a : Nat),
      (rdev_event_to_func_to_call kbs ev cur last).1 = some a →
      ∃ p, p ∈ kbs ∧ p.2 = a ∧ p.1.rpt = 1) := by
  constructor
  · intro kbs ev cur last
    cases ev with
    | press x =>
      simp only [rdev_event_to_func_to_call]
      rw [keybind_match_clearModeConsume]
    | release x => rfl
    | other => rfl
  · intro kbs ev cur last a h
    cases ev with
    | press x =>
      simp only [rdev_event_to_func_to_call] at h
      split at h
      · obtain ⟨p, hp, ha, hm⟩ :=
          keybind_match_some_entry kbs _ _ 1 none none a h
        exact ⟨p, hp, ha, keybind_entry_matches_rpt _ _ _ _ _ _ hm⟩
      · simp at h
    | release x => simp [rdev_event_to_func_to_call] at h
    | other => simp [rdev_event_to_func_to_call] at h

/-- Claim C10, witness: over the one-entry Ctrl+a registry, the query
result is unchanged by clearing mode and consume fields, and the fired
function 7 belongs to an entry of repeat count 1. -/
theorem C10_capture_path_query_semantics_witness :
    rdev_event_to_func_to_call ([(kbCtrlA, 7)].map clearModeConsume)
        (REvent.press RDevKey.KeyA) [RDevKey.ControlLeft] [] =
      rdev_event_to_func_to_call [(kbCtrlA, 7)] (REvent.press RDevKey.KeyA)
        [RDevKey.ControlLeft] [] ∧
    ∃ p, p ∈ [(kbCtrlA, 7)] ∧ p.2 = 7 ∧ p.1.rpt = 1 :=
  ⟨C10_capture_path_query_semantics.1 [(kbCtrlA, 7)] (REvent.press RDevKey.KeyA)
      [RDevKey.ControlLeft] [],
   C10_capture_path_query_semantics.2 [(kbCtrlA, 7)]
      (REvent.press RDevKey.KeyA) [RDevKey.ControlLeft] [] 7 rfl⟩

/-- Claim C5.  Registry round trip through `keyevent_match`: adding a
binding to a registry none of whose entries matches the event, then
querying with an event satisfying the binding's key, repeat, modifier
and mode conditions, returns that binding; removing the binding and
repeating the query returns no match. -/
theorem C5_registry_round_trip :
    ∀ (kbs : List (KeyBinding × Nat)) (kb : KeyBinding) (afn : Nat)
      (sr : ScreenReaderMode) (ev : KeyEvent),
      kb.key = ev.key → kb.rpt = ev.rpt →
      keyevent_mod_test kb.mods ev.mods = true →
      (kb.mode = none ∨ kb.mode = some sr) →
      (∀ p ∈ kbs, keyevent_entry_matches p.1 sr ev = false) →
      keyevent_match (add_keybind kbs kb afn).1 sr ev = some kb ∧
      keyevent_match (remove_keybind (add_keybind kbs kb afn).1 kb).1 sr ev
        = none := by
  intro kbs kb afn sr ev hkey hrpt hmod hmode hothers
  have hentry : keyevent_entry_matches kb sr ev = true := by
    unfold keyevent_entry_matches
    rw [hkey, hrpt, hmod]
    rcases hmode with h | h <;> rw [h] <;> simp
  have hfilter : ∀ p ∈ kbs.filter (fun p => decide (p.1 ≠ kb)),
      keyevent_entry_matches p.1 sr ev = false :=
    fun p hp => hothers p (List.mem_of_mem_filter hp)
  constructor
  · show keyevent_match
      (kbs.filter (fun p => decide (p.1 ≠ kb)) ++ [(kb, afn)]) sr ev = some kb
    rw [keyevent_match_append _ _ _ _ hfilter, keyevent_match, hentry]
    simp
  · show keyevent_match
      ((kbs.filter (fun p => decide (p.1 ≠ kb)) ++ [(kb, afn)]).filter
        (fun p => decide (p.1 ≠ kb))) sr ev = none
    rw [List.filter_append]
    have h2 : ([(kb, afn)] : List (KeyBinding × Nat)).filter
        (fun p => decide (p.1 ≠ kb)) = [] := by simp
    rw [h2, List.append_nil]
    apply keyevent_match_none
    intro p hp
    exact hothers p (List.mem_of_mem_filter (List.mem_of_mem_filter hp))

/-- Claim C5, witness: adding Ctrl+a to a registry holding only a
non-matching repeat-2 binding, the Ctrl+a event finds the new binding;
after removal it finds nothing. -/
theorem C5_registry_round_trip_witness :
    keyevent_match (add_keybind [(kbRpt2, 3)] kbCtrlA 7).1 commandMoode evCtrlA
      = some kbCtrlA ∧
    keyevent_match
        (remove_keybind (add_keybind [(kbRpt2, 3)] kbCtrlA 7).1 kbCtrlA).1
        commandMoode evCtrlA = none :=
  C5_registry_round_trip [(kbRpt2, 3)] kbCtrlA 7 commandMoode evCtrlA
    (by decide) (by decide) (by decide) (Or.inl rfl) (by decide)
